import Mathlib

/-!
Verification development for the dental X-ray analysis page (`src/app.py`).

The program is a single Streamlit script: it resolves an API key, configures a
remote generative model, collects a patient-history form into the session
store, decodes and enhances an uploaded X-ray image, and on demand builds a
text prompt from the patient record and sends it to the remote model.

The script is embedded shallowly: external library calls (OpenCV decoding and
filtering, base64, the remote model) are modelled as explicit Lean functions or
oracle parameters, and one render pass of the script is the function
`runScript`, mapping the external inputs and the session state to the rendered
output and the next session state.
-/

namespace DentalXray

/-- The patient-history record collected by the sidebar form
(`app.py` lines 66-78): the keys written by
`st.session_state.patient_history.update({...})`. -/
structure PatientRecord where
  name : String
  age : Nat
  gender : String
  medical_history : List String
  dental_complaints : String
  previous_treatments : String
  smoking : String
  last_dental_visit : Nat
deriving DecidableEq

/-- A grayscale image matrix: a list of rows of 8-bit intensity samples
(the `cv2.IMREAD_GRAYSCALE` result of `cv2.imdecode`, line 91). -/
abbrev ImageMatrix := List (List Nat)

/-- Number of rows of an image matrix. -/
def rows (m : ImageMatrix) : Nat := m.length

/-- Number of columns of an image matrix (length of the first row). -/
def cols (m : ImageMatrix) : Nat := (m.headD []).length

/-- Sample at row `i`, column `j`, reading out-of-range positions as 0. -/
def pixAt (m : ImageMatrix) (i j : Nat) : Nat := (m.getD i []).getD j 0

/-- Sample at possibly negative integer coordinates, 0 outside the image. -/
def pixAtI (m : ImageMatrix) (i j : Int) : Nat :=
  if 0 ≤ i ∧ 0 ≤ j then pixAt m i.toNat j.toNat else 0

/-- A natural number as a self-delimiting byte sequence (seven value bits
per byte, little-endian, high bit set on every byte but the last), so that
dimension fields of any magnitude serialize to valid bytes. -/
def natToBytes (n : Nat) : List Nat :=
  if h : n < 128 then [n]
  else (n % 128 + 128) :: natToBytes (n / 128)
termination_by n
decreasing_by omega

/-- Reading one `natToBytes`-encoded number off the front of a byte stream,
returning the value and the remaining stream. -/
def readNat : List Nat → Option (Nat × List Nat)
  | [] => none
  | b :: rest =>
    if b < 128 then some (b, rest)
    else
      match readNat rest with
      | some (v, rest2) => some (b - 128 + 128 * v, rest2)
      | none => none

/-- Modelled from the spec: `cv2.imdecode` (line 91) is an external OpenCV
call not part of this repository. Following the spec, §4.3
("decode(bytes) -> ImageMatrix, failing with a DecodeError when bytes do not
represent a readable raster image"), we model a minimal lossless grayscale
raster format: a four-byte signature, a row count and a column count in the
self-delimiting encoding (any dimensions representable), then exactly
rows*cols intensity samples in row-major order; every other buffer fails to
decode (returns `none`, the counterpart of `img is None`). -/
def imdecode (bs : List Nat) : Option ImageMatrix :=
  match bs with
  | 137 :: 80 :: 78 :: 71 :: rest =>
    match readNat rest with
    | some (r, rest2) =>
      match readNat rest2 with
      | some (c, rest3) =>
        if r ≠ 0 ∧ c ≠ 0 ∧ rest3.length = r * c then
          some ((List.range r).map fun i => (List.range c).map fun j =>
            rest3.getD (i * c + j) 0)
        else none
      | none => none
    | none => none
  | _ => none

/-- Modelled from the spec: `cv2.imencode('.png', ...)` (line 115) is an
external OpenCV call; §4.3 says `encode` "serializes the enhanced matrix to a
standard lossless raster format". We serialize to the same lossless format
that `imdecode` reads; the dimension fields are self-delimiting, so a matrix
of any size serializes. -/
def imencode (m : ImageMatrix) : List Nat :=
  137 :: 80 :: 78 :: 71 :: (natToBytes (rows m) ++ natToBytes (cols m) ++ m.flatten)

/-- Squared difference of two samples. -/
def sqDiff (a b : Nat) : Nat := (((a : Int) - (b : Int)).natAbs) ^ 2

/-- Squared distance between the template patches centred at `(i, j)` and
`(k, l)`, with half window `halfT` (positions outside the image read as 0). -/
def patchDist (m : ImageMatrix) (i j k l halfT : Nat) : Nat :=
  (((List.range (2 * halfT + 1)).flatMap fun di =>
    (List.range (2 * halfT + 1)).map fun dj =>
      sqDiff (pixAtI m ((i : Int) + di - halfT) ((j : Int) + dj - halfT))
             (pixAtI m ((k : Int) + di - halfT) ((l : Int) + dj - halfT)))).sum

/-- The indices of the search window of half width `half` around `center`,
clamped to `[0, bound)`. -/
def searchIndices (center half bound : Nat) : List Nat :=
  List.range' (center - half) (min (center + half) (bound - 1) + 1 - (center - half))

/-- Integer-arithmetic model of the exponential similarity weight
`exp(-d / h^2)` of non-local means: positive, maximal at patch distance 0 and
decreasing in the patch distance `d`. -/
def nlmWeight (h d : Nat) : Nat := 1000 * (h * h + 1) / (h * h + 1 + d)

/-- One output sample of non-local-means denoising: the weighted average of
the samples in the clamped search window around `(i, j)`, weighted by patch
similarity. -/
def nlmPixel (m : ImageMatrix) (h halfT halfS i j : Nat) : Nat :=
  let ws := (searchIndices i halfS (rows m)).flatMap fun k =>
    (searchIndices j halfS (cols m)).map fun l =>
      (nlmWeight h (patchDist m i j k l halfT), pixAt m k l)
  ((ws.map fun p => p.1 * p.2).sum) / ((ws.map fun p => p.1).sum)

/-- Modelled from the spec: `cv2.fastNlMeansDenoising` (line 107) is an
external OpenCV call; §4.3 describes it as "non-local-means style denoising
parameterized by denoiseStrength, with fixed template/search window sizes
(7, 21)". Each output sample is a similarity-weighted average over the
search window; the output grid has one sample per input position. -/
def fastNlMeansDenoising (m : ImageMatrix) (h templateWindowSize searchWindowSize : Nat) :
    ImageMatrix :=
  (List.range (rows m)).map fun i => (List.range (cols m)).map fun j =>
    nlmPixel m h (templateWindowSize / 2) (searchWindowSize / 2) i j

/-- Ceiling side length of a tile when `total` samples are split into `grid`
tiles. -/
def tileDim (total grid : Nat) : Nat := (total + grid - 1) / grid

/-- The samples of the tile with tile coordinates `(tr, tc)`. -/
def tilePixelList (m : ImageMatrix) (tileH tileW tr tc : Nat) : List Nat :=
  (((List.range (rows m)).filter fun i => i / tileH == tr).flatMap fun i =>
    ((List.range (cols m)).filter fun j => j / tileW == tc).map fun j => pixAt m i j)

/-- Number of samples of value `b` in a sample list (one histogram bin). -/
def histCount (px : List Nat) (b : Nat) : Nat := (px.filter fun a => a == b).length

/-- Floor of a nonnegative rational as a natural number. -/
def qToNatFloor (q : ℚ) : Nat := q.num.toNat / q.den

/-- The histogram clipping threshold of CLAHE: `clipLimit` times the average
bin occupancy of a 256-bin histogram over `area` samples, at least 1. -/
def clipThresh (clip : ℚ) (area : Nat) : Nat :=
  max 1 (qToNatFloor (clip * (area : ℚ) / 256))

/-- Total histogram mass above the clipping threshold. -/
def excessMass (px : List Nat) (t : Nat) : Nat :=
  ((List.range 256).map fun b => histCount px b - t).sum

/-- Cumulative clipped histogram at value `v`, with the clipped excess
redistributed uniformly over the 256 bins. -/
def cdfClipped (px : List Nat) (t v : Nat) : Nat :=
  ((List.range (v + 1)).map fun b => min (histCount px b) t + excessMass px t / 256).sum

/-- Modelled from the spec: `cv2.createCLAHE(...).apply` (lines 108-109) is an
external OpenCV call; §4.3 describes it as "adaptive local-contrast
enhancement (tile size 8x8) parameterized by contrastLimit". Each sample is
mapped through the clipped cumulative histogram of its own tile. -/
def claheApply (clip : ℚ) (grid : Nat) (m : ImageMatrix) : ImageMatrix :=
  let tileH := tileDim (rows m) grid
  let tileW := tileDim (cols m) grid
  (List.range (rows m)).map fun i => (List.range (cols m)).map fun j =>
    let px := tilePixelList m tileH tileW (i / tileH) (j / tileW)
    cdfClipped px (clipThresh clip px.length) (pixAt m i j) * 255 / px.length

/-- The enhancement pipeline of `app.py` lines 107-109: non-local-means
denoising with windows 7 and 21, then CLAHE with an 8x8 tile grid. -/
def enhance (m : ImageMatrix) (denoise_strength : Nat) (contrast_limit : ℚ) : ImageMatrix :=
  claheApply contrast_limit 8 (fastNlMeansDenoising m denoise_strength 7 21)

/-- Modelled from the spec: `base64.b64encode` (line 116) is a Python
standard-library call; we model standard base64 over the alphabet
`A-Za-z0-9+/` with `=` padding. -/
def base64Alphabet : List Char :=
  "ABCDEFGHIJKLMNOPQRSTUVWXYZabcdefghijklmnopqrstuvwxyz0123456789+/".data

/-- The base64 digit character of a 6-bit value. -/
def b64Char (n : Nat) : Char := base64Alphabet.getD n '?'

/-- The 6-bit value of a base64 digit character. -/
def b64Index (c : Char) : Nat := base64Alphabet.indexOf c

/-- Base64-encode a byte list, three bytes to four digits, padding the final
group with `=`. -/
def b64encodeChunks : List Nat → List Char
  | [] => []
  | [a] => [b64Char (a / 4), b64Char (a % 4 * 16), '=', '=']
  | [a, b] => [b64Char (a / 4), b64Char (a % 4 * 16 + b / 16), b64Char (b % 16 * 4), '=']
  | a :: b :: c :: rest =>
    b64Char (a / 4) :: b64Char (a % 4 * 16 + b / 16) :: b64Char (b % 16 * 4 + c / 64) ::
      b64Char (c % 64) :: b64encodeChunks rest

/-- The `base64.b64encode(...).decode('utf-8')` step of line 116, as a
string-valued function. -/
def b64encode (bs : List Nat) : String := String.mk (b64encodeChunks bs)

/-- Base64-decode a digit list back to bytes (inverse of `b64encodeChunks`):
four digits to three bytes, with `=` padding in the final group dropping the
trailing bytes. -/
def b64decodeChunks : List Char → List Nat
  | c1 :: c2 :: c3 :: c4 :: rest =>
    if rest = [] then
      if c3 = '=' then [b64Index c1 * 4 + b64Index c2 / 16]
      else if c4 = '=' then
        [b64Index c1 * 4 + b64Index c2 / 16, b64Index c2 % 16 * 16 + b64Index c3 / 4]
      else
        [b64Index c1 * 4 + b64Index c2 / 16, b64Index c2 % 16 * 16 + b64Index c3 / 4,
         b64Index c3 % 4 * 64 + b64Index c4]
    else
      (b64Index c1 * 4 + b64Index c2 / 16) :: (b64Index c2 % 16 * 16 + b64Index c3 / 4) ::
        (b64Index c3 % 4 * 64 + b64Index c4) :: b64decodeChunks rest
  | _ => []

/-- Concatenation of a list of string segments (the semantics of a Python
f-string template: literal segments interleaved with interpolated values). -/
def concatAll : List String → String
  | [] => ""
  | s :: rest => s ++ concatAll rest

/-- The f-string of `app.py` lines 137-155, split at every interpolation and
at the three instruction bullets: the prompt sent to the remote model, built
from the patient record and the selected focus areas only. -/
def buildPrompt (r : PatientRecord) (analysis_type : List String) : String :=
  concatAll [
    "\n                    Please analyze this dental X-ray image with the following context:\n\n                    Patient Information:\n                    - Name: ",
    r.name,
    "\n                    - Age: ",
    toString r.age,
    "\n                    - Gender: ",
    r.gender,
    "\n                    - Medical History: ",
    String.intercalate ", " r.medical_history,
    "\n                    - Current Complaints: ",
    r.dental_complaints,
    "\n                    - Previous Treatments: ",
    r.previous_treatments,
    "\n                    - Smoking Status: ",
    r.smoking,
    "\n\n                    Focus Areas: ",
    String.intercalate ", " analysis_type,
    "\n\n                    Provide:\n                    ",
    "1. Identified abnormalities",
    "\n                    ",
    "2. Potential diagnosis",
    "\n                    ",
    "3. Recommendations",
    "\n                    "]

/-- `sub` occurs as a contiguous substring of `s`. -/
def strContains (s sub : String) : Prop := ∃ a b : String, s = a ++ sub ++ b

/-- The external inputs of one render pass of the script: widget states,
the uploaded file, the credential sources, and oracles for the outcomes of
the external calls (`genai.configure`, the enhancement library call, and
`model.generate_content`). -/
structure ScriptInputs where
  secretsKey : Option String
  envKey : Option String
  configureError : Option String
  uploadedFile : Option (List Nat)
  formName : String
  formAge : Nat
  formGender : String
  formMedicalHistory : List String
  formComplaints : String
  formPreviousTreatments : String
  formSmoking : String
  formLastVisit : Nat
  denoiseStrength : Nat
  contrastLimit : ℚ
  processingError : Option String
  analysisType : List String
  generatePressed : Bool
  generateContent : String → Except String String

/-- The session store (`st.session_state`): the patient-history record
(`none` models the empty dict before the form first runs) and the
`api_key_provided` entry (`none` models the key being absent). -/
structure SessionState where
  patient_history : Option PatientRecord
  api_key_provided : Option Bool
deriving DecidableEq

/-- What one render pass put on the page: error messages, whether `st.stop`
cut the pass short, and which components were rendered with what data. -/
structure RenderOutput where
  errors : List String
  haltedEarly : Bool
  formShown : Bool
  originalImage : Option ImageMatrix
  slidersShown : Bool
  enhancedImage : Option ImageMatrix
  base64Image : Option String
  analysisSectionShown : Bool
  remoteCalls : List String
  analysisResult : Option String
  disclaimerShown : Bool
  footerShown : Bool
deriving DecidableEq

/-- The API key of line 48: the secrets-store value if the key is present
there, otherwise the environment value (`st.secrets.get` with `os.getenv` as
the default). -/
def resolvedApiKey (inp : ScriptInputs) : Option String :=
  match inp.secretsKey with
  | some v => some v
  | none => inp.envKey

/-- Truthiness of the resolved key (`if not api_key`, line 49): present and
not the empty string. -/
def apiKeyOk (inp : ScriptInputs) : Bool :=
  match resolvedApiKey inp with
  | some v => !(v == "")
  | none => false

/-- The patient record the form writes into the session on every render pass
(lines 67-77). -/
def recordOfInputs (inp : ScriptInputs) : PatientRecord :=
  ⟨inp.formName, inp.formAge, inp.formGender, inp.formMedicalHistory,
   inp.formComplaints, inp.formPreviousTreatments, inp.formSmoking, inp.formLastVisit⟩

/-- A render output with nothing rendered beyond the given error messages:
the shape of every `st.error(...); st.stop()` exit. -/
def haltedOutput (es : List String) : RenderOutput :=
  { errors := es, haltedEarly := true, formShown := false, originalImage := none,
    slidersShown := false, enhancedImage := none, base64Image := none,
    analysisSectionShown := false, remoteCalls := [], analysisResult := none,
    disclaimerShown := false, footerShown := false }

/-- The main content area (lines 81-165): column 1 decodes, displays and
enhances the upload, column 2 is gated on `uploaded_file and 'name' in
st.session_state.patient_history and st.session_state.patient_history['name']`
(line 127; `record` here is exactly the record the form just stored) and, on
the button press, builds the prompt and performs the single remote call
(`if st.button("Generate Analysis") and model`, the model handle being
always truthy once configuration succeeded). The disclaimer of lines 164-165
sits inside the button block, after the try/except around the remote call. -/
def pageBody (inp : ScriptInputs) (record : PatientRecord) : RenderOutput :=
  match inp.uploadedFile with
  | none =>
    { errors := [], haltedEarly := false, formShown := true, originalImage := none,
      slidersShown := false, enhancedImage := none, base64Image := none,
      analysisSectionShown := false, remoteCalls := [], analysisResult := none,
      disclaimerShown := false, footerShown := true }
  | some bs =>
    match imdecode bs with
    | none =>
      { errors := ["Error: Unable to read the image. Please try another file."],
        haltedEarly := true, formShown := true, originalImage := none,
        slidersShown := false, enhancedImage := none, base64Image := none,
        analysisSectionShown := false, remoteCalls := [], analysisResult := none,
        disclaimerShown := false, footerShown := false }
    | some img =>
      match inp.processingError with
      | some e =>
        { errors := ["Error processing image: " ++ e], haltedEarly := true,
          formShown := true, originalImage := some img, slidersShown := true,
          enhancedImage := none, base64Image := none, analysisSectionShown := false,
          remoteCalls := [], analysisResult := none, disclaimerShown := false,
          footerShown := false }
      | none =>
        let enhanced := enhance img inp.denoiseStrength inp.contrastLimit
        let payload := b64encode (imencode enhanced)
        if !(record.name == "") then
          if inp.generatePressed then
            let prompt := buildPrompt record inp.analysisType
            match inp.generateContent prompt with
            | .ok t =>
              { errors := [], haltedEarly := false, formShown := true,
                originalImage := some img, slidersShown := true,
                enhancedImage := some enhanced, base64Image := some payload,
                analysisSectionShown := true, remoteCalls := [prompt],
                analysisResult := some t, disclaimerShown := true, footerShown := true }
            | .error e =>
              { errors := ["Error generating analysis: " ++ e], haltedEarly := false,
                formShown := true, originalImage := some img, slidersShown := true,
                enhancedImage := some enhanced, base64Image := some payload,
                analysisSectionShown := true, remoteCalls := [prompt],
                analysisResult := none, disclaimerShown := true, footerShown := true }
          else
            { errors := [], haltedEarly := false, formShown := true,
              originalImage := some img, slidersShown := true,
              enhancedImage := some enhanced, base64Image := some payload,
              analysisSectionShown := true, remoteCalls := [], analysisResult := none,
              disclaimerShown := false, footerShown := true }
        else
          { errors := [], haltedEarly := false, formShown := true,
            originalImage := some img, slidersShown := true,
            enhancedImage := some enhanced, base64Image := some payload,
            analysisSectionShown := false, remoteCalls := [], analysisResult := none,
            disclaimerShown := false, footerShown := true }

/-- What one render pass of the whole script puts on the page: resolve and
check the API key (lines 48-51, `st.error`/`st.stop` when falsy), configure
the model (lines 54-59), then the sidebar form, the main content area and
the footer. -/
def renderOutput (inp : ScriptInputs) : RenderOutput :=
  if apiKeyOk inp then
    match inp.configureError with
    | some e => haltedOutput ["Error configuring Gemini API: " ++ e]
    | none => pageBody inp (recordOfInputs inp)
  else
    haltedOutput ["⚠️ Please set the API key in Streamlit Secrets or environment variables."]

/-- How one render pass of the script updates the session store: lines 41-45
default `patient_history` to `{}` and `api_key_provided` to `False` when
absent, and the form body (lines 67-77) overwrites the stored record on
every pass that reaches it. -/
def nextSession (inp : ScriptInputs) (s : SessionState) : SessionState :=
  let akp := some (s.api_key_provided.getD false)
  if apiKeyOk inp then
    match inp.configureError with
    | some _ => ⟨s.patient_history, akp⟩
    | none => ⟨some (recordOfInputs inp), akp⟩
  else
    ⟨s.patient_history, akp⟩

/-- One render pass of the whole script, from external inputs and the
current session state to the rendered output and the next session state. -/
def runScript (inp : ScriptInputs) (s : SessionState) : RenderOutput × SessionState :=
  (renderOutput inp, nextSession inp s)

/-- The session states reachable by some sequence of render passes from a
fresh session (an empty `st.session_state`, then any number of passes with
arbitrary external inputs). -/
inductive ReachableSession : SessionState → Prop
  | init : ReachableSession ⟨none, none⟩
  | step (inp : ScriptInputs) (s : SessionState) :
      ReachableSession s → ReachableSession (runScript inp s).2

/-- A structurally sound image: nonempty, every row of the common positive
width, every sample an 8-bit intensity (below 256, per the data model); the
dimensions are unconstrained. -/
def wellFormedImage (m : ImageMatrix) : Bool :=
  !(m == []) && cols m != 0 &&
    m.all fun r => r.length == cols m && r.all fun x => Nat.blt x 256

/-- The uploaded file, if any, decodes successfully. -/
def decodesOk : Option (List Nat) → Bool
  | some bs => (imdecode bs).isSome
  | none => true

/-- A concrete input sample: a present credential, successful configuration,
a decodable 2x2 upload, the default form values of the widgets, one focus
area, the button not pressed, and a remote oracle that succeeds. -/
def sampleInputs : ScriptInputs where
  secretsKey := some "test-api-key"
  envKey := none
  configureError := none
  uploadedFile := some [137, 80, 78, 71, 2, 2, 10, 20, 30, 40]
  formName := "John Doe"
  formAge := 30
  formGender := "Male"
  formMedicalHistory := ["None"]
  formComplaints := "Tooth pain"
  formPreviousTreatments := "None"
  formSmoking := "Non-smoker"
  formLastVisit := 20241012
  denoiseStrength := 10
  contrastLimit := 2
  processingError := none
  analysisType := ["Cavity Detection"]
  generatePressed := false
  generateContent := fun _ => Except.ok "Result text"

/-- The sample inputs with no credential in either source. -/
def noKeyInputs : ScriptInputs := { sampleInputs with secretsKey := none, envKey := none }

/-- The sample inputs with an upload that is not a readable image. -/
def badUploadInputs : ScriptInputs := { sampleInputs with uploadedFile := some [1, 2, 3] }

/-- The sample inputs with no upload at all. -/
def idleInputs : ScriptInputs := { sampleInputs with uploadedFile := none }

/-- The sample inputs with the button pressed and a failing remote oracle. -/
def failingRemoteInputs : ScriptInputs :=
  { sampleInputs with
    generatePressed := true
    generateContent := fun _ => Except.error "quota exceeded" }

/-- The sample inputs with the button pressed and a succeeding remote
oracle. -/
def pressedInputs : ScriptInputs := { sampleInputs with generatePressed := true }

/-- The sample inputs with an empty patient name. -/
def emptyNameInputs : ScriptInputs := { sampleInputs with formName := "" }

/-! ### Dimension preservation of the enhancement pipeline -/

/-- A grid built by mapping over the row and column ranges of `m` has the
row count of `m`. -/
theorem rows_mapGrid (m : ImageMatrix) (f : Nat → Nat → Nat) :
    rows ((List.range (rows m)).map fun i => (List.range (cols m)).map fun j => f i j)
      = rows m := by
  simp [rows]

/-- A grid built by mapping over the row and column ranges of `m` has the
column count of `m`. -/
theorem cols_mapGrid (m : ImageMatrix) (f : Nat → Nat → Nat) :
    cols ((List.range (rows m)).map fun i => (List.range (cols m)).map fun j => f i j)
      = cols m := by
  cases m with
  | nil => simp [rows, cols]
  | cons r t => simp [rows, cols, List.range_succ_eq_map]

/-- Denoising preserves the row count. -/
theorem rows_fastNlMeansDenoising (m : ImageMatrix) (h t s : Nat) :
    rows (fastNlMeansDenoising m h t s) = rows m :=
  rows_mapGrid m _

/-- Denoising preserves the column count. -/
theorem cols_fastNlMeansDenoising (m : ImageMatrix) (h t s : Nat) :
    cols (fastNlMeansDenoising m h t s) = cols m :=
  cols_mapGrid m _

/-- CLAHE preserves the row count. -/
theorem rows_claheApply (clip : ℚ) (grid : Nat) (m : ImageMatrix) :
    rows (claheApply clip grid m) = rows m :=
  rows_mapGrid m _

/-- CLAHE preserves the column count. -/
theorem cols_claheApply (clip : ℚ) (grid : Nat) (m : ImageMatrix) :
    cols (claheApply clip grid m) = cols m :=
  cols_mapGrid m _

/-- The whole enhancement pipeline preserves the row count. -/
theorem rows_enhance (m : ImageMatrix) (d : Nat) (c : ℚ) :
    rows (enhance m d c) = rows m := by
  unfold enhance
  rw [rows_claheApply, rows_fastNlMeansDenoising]

/-- The whole enhancement pipeline preserves the column count. -/
theorem cols_enhance (m : ImageMatrix) (d : Nat) (c : ℚ) :
    cols (enhance m d c) = cols m := by
  unfold enhance
  rw [cols_claheApply, cols_fastNlMeansDenoising]

/-! ### Substring structure of the prompt -/

/-- Every segment of a concatenation occurs as a substring of the result. -/
theorem strContains_concatAll (parts : List String) (sub : String) (h : sub ∈ parts) :
    strContains (concatAll parts) sub := by
  induction parts with
  | nil => cases h
  | cons p rest ih =>
    rcases List.mem_cons.mp h with hph | hmem
    · exact ⟨"", concatAll rest, by rw [concatAll, hph]; simp⟩
    · obtain ⟨a, b, hab⟩ := ih hmem
      exact ⟨p ++ a, b, by
        rw [concatAll, hab, String.append_assoc, String.append_assoc, String.append_assoc]⟩

/-! ### Base64 and raster encoding round-trips -/

/-- Decoding the base64 digit of a 6-bit value recovers the value. -/
theorem b64Index_b64Char : ∀ n, n < 64 → b64Index (b64Char n) = n := by decide

/-- A base64 digit is never the padding character. -/
theorem b64Char_ne_pad : ∀ n, n < 64 → ¬ b64Char n = '=' := by decide

/-- Encoding produces the empty digit list only for the empty byte list. -/
theorem b64encodeChunks_eq_nil_iff : ∀ bs, b64encodeChunks bs = [] ↔ bs = []
  | [] => by simp [b64encodeChunks]
  | [_] => by simp [b64encodeChunks]
  | [_, _] => by simp [b64encodeChunks]
  | _ :: _ :: _ :: _ => by simp [b64encodeChunks]

/-- Base64 decoding inverts base64 encoding on byte lists. -/
theorem b64_roundtrip : ∀ bs : List Nat, (∀ x ∈ bs, x < 256) →
    b64decodeChunks (b64encodeChunks bs) = bs
  | [], _ => rfl
  | [a], h => by
    have ha : a < 256 := h a (by simp)
    show b64decodeChunks [b64Char (a / 4), b64Char (a % 4 * 16), '=', '='] = [a]
    rw [b64decodeChunks, if_pos rfl, if_pos rfl,
      b64Index_b64Char _ (by omega), b64Index_b64Char _ (by omega)]
    have : a / 4 * 4 + a % 4 * 16 / 16 = a := by omega
    rw [this]
  | [a, b], h => by
    have ha : a < 256 := h a (by simp)
    have hb : b < 256 := h b (by simp)
    show b64decodeChunks
      [b64Char (a / 4), b64Char (a % 4 * 16 + b / 16), b64Char (b % 16 * 4), '='] = [a, b]
    rw [b64decodeChunks, if_pos rfl, if_neg (b64Char_ne_pad _ (by omega)), if_pos rfl,
      b64Index_b64Char _ (by omega), b64Index_b64Char _ (by omega),
      b64Index_b64Char _ (by omega)]
    have e1 : a / 4 * 4 + (a % 4 * 16 + b / 16) / 16 = a := by omega
    have e2 : (a % 4 * 16 + b / 16) % 16 * 16 + b % 16 * 4 / 4 = b := by omega
    rw [e1, e2]
  | a :: b :: c :: rest, h => by
    have ha : a < 256 := h a (by simp)
    have hb : b < 256 := h b (by simp)
    have hc : c < 256 := h c (by simp)
    show b64decodeChunks (b64Char (a / 4) :: b64Char (a % 4 * 16 + b / 16) ::
      b64Char (b % 16 * 4 + c / 64) :: b64Char (c % 64) :: b64encodeChunks rest)
        = a :: b :: c :: rest
    rw [b64decodeChunks]
    by_cases htail : b64encodeChunks rest = []
    · have hrest : rest = [] := (b64encodeChunks_eq_nil_iff rest).mp htail
      subst hrest
      rw [if_pos htail, if_neg (b64Char_ne_pad _ (by omega)),
        if_neg (b64Char_ne_pad _ (by omega)),
        b64Index_b64Char _ (by omega), b64Index_b64Char _ (by omega),
        b64Index_b64Char _ (by omega), b64Index_b64Char _ (by omega)]
      have e1 : a / 4 * 4 + (a % 4 * 16 + b / 16) / 16 = a := by omega
      have e2 : (a % 4 * 16 + b / 16) % 16 * 16 + (b % 16 * 4 + c / 64) / 4 = b := by omega
      have e3 : (b % 16 * 4 + c / 64) % 4 * 64 + c % 64 = c := by omega
      rw [e1, e2, e3]
    · rw [if_neg htail,
        b64Index_b64Char _ (by omega), b64Index_b64Char _ (by omega),
        b64Index_b64Char _ (by omega), b64Index_b64Char _ (by omega),
        b64_roundtrip rest (fun x hx => h x (by simp [hx]))]
      have e1 : a / 4 * 4 + (a % 4 * 16 + b / 16) / 16 = a := by omega
      have e2 : (a % 4 * 16 + b / 16) % 16 * 16 + (b % 16 * 4 + c / 64) / 4 = b := by omega
      have e3 : (b % 16 * 4 + c / 64) % 4 * 64 + c % 64 = c := by omega
      rw [e1, e2, e3]

/-- Reading a list back off its own index range is the identity. -/
theorem map_range_getD : ∀ l : List Nat, (List.range l.length).map (fun j => l.getD j 0) = l
  | [] => rfl
  | a :: t => by
    rw [List.length_cons, List.range_succ_eq_map, List.map_cons, List.map_map]
    congr 1
    simp only [Function.comp_def, List.getD_cons_succ]
    exact map_range_getD t

/-- The flattening of a matrix with uniform row length `c` has `rows * c`
samples. -/
theorem flatten_length_uniform :
    ∀ (m : List (List Nat)) (c : Nat), (∀ r ∈ m, r.length = c) →
      m.flatten.length = m.length * c
  | [], _, _ => by simp
  | r :: t, c, h => by
    have hr : r.length = c := h r (by simp)
    have ih := flatten_length_uniform t c (fun x hx => h x (by simp [hx]))
    rw [List.flatten_cons, List.length_append, hr, ih, List.length_cons, Nat.succ_mul,
      Nat.add_comm]

/-- Rebuilding a uniform matrix from its row-major flattening by indexed
reads recovers the matrix. -/
theorem unflatten_flatten :
    ∀ (m : List (List Nat)) (c : Nat), (∀ r ∈ m, r.length = c) →
      (List.range m.length).map
        (fun i => (List.range c).map fun j => m.flatten.getD (i * c + j) 0) = m
  | [], _, _ => rfl
  | r :: t, c, h => by
    have hr : r.length = c := h r (by simp)
    have ih := unflatten_flatten t c (fun x hx => h x (by simp [hx]))
    rw [List.length_cons, List.range_succ_eq_map, List.map_cons, List.map_map,
      List.flatten_cons]
    congr 1
    · rw [← hr]
      rw [List.map_congr_left (fun j hj => by
        have hjr : j < r.length := List.mem_range.mp hj
        rw [Nat.zero_mul, Nat.zero_add, List.getD_append r t.flatten 0 j hjr])]
      exact map_range_getD r
    · rw [List.map_congr_left (fun i _ => by
        show (List.range c).map (fun j => (r ++ t.flatten).getD ((i + 1) * c + j) 0)
          = (List.range c).map fun j => t.flatten.getD (i * c + j) 0
        exact List.map_congr_left (fun j _ => by
          have hle : r.length ≤ (i + 1) * c + j := by
            rw [hr]
            have : (i + 1) * c + j = c + (i * c + j) := by ring
            rw [this]
            exact Nat.le_add_right c (i * c + j)
          rw [List.getD_append_right r t.flatten 0 ((i + 1) * c + j) hle, hr]
          congr 1
          have : (i + 1) * c = i * c + c := by ring
          rw [this]
          omega))]
      exact ih

/-- Every byte of the self-delimiting encoding of a natural number fits in
a byte. -/
theorem natToBytes_lt (n : Nat) : ∀ b ∈ natToBytes n, b < 256 := by
  induction n using Nat.strong_induction_on with
  | _ n ih =>
    by_cases h : n < 128
    · rw [natToBytes, dif_pos h]
      intro b hb
      have : b = n := List.mem_singleton.mp hb
      omega
    · rw [natToBytes, dif_neg h]
      intro b hb
      rcases List.mem_cons.mp hb with h1 | h1
      · omega
      · exact ih (n / 128) (by omega) b h1

/-- Reading the self-delimiting encoding of `n` off the front of any stream
recovers `n` and the rest of the stream. -/
theorem readNat_natToBytes (n : Nat) :
    ∀ tail : List Nat, readNat (natToBytes n ++ tail) = some (n, tail) := by
  induction n using Nat.strong_induction_on with
  | _ n ih =>
    intro tail
    by_cases h : n < 128
    · rw [natToBytes, dif_pos h]
      show readNat (n :: tail) = some (n, tail)
      rw [readNat, if_pos h]
    · rw [natToBytes, dif_neg h]
      show readNat ((n % 128 + 128) :: (natToBytes (n / 128) ++ tail)) = some (n, tail)
      rw [readNat, if_neg (by omega), ih (n / 128) (by omega) tail]
      have e : n % 128 + 128 - 128 + 128 * (n / 128) = n := by omega
      show some (n % 128 + 128 - 128 + 128 * (n / 128), tail) = some (n, tail)
      rw [e]

/-- Unpacking of the well-formedness check into propositional facts. -/
theorem wellFormedImage_spec (m : ImageMatrix) (h : wellFormedImage m = true) :
    m ≠ [] ∧ cols m ≠ 0 ∧ ∀ r ∈ m, r.length = cols m ∧ ∀ x ∈ r, x < 256 := by
  simp only [wellFormedImage, Bool.and_eq_true, List.all_eq_true, Bool.not_eq_true',
    beq_eq_false_iff_ne, Nat.blt_eq, bne_iff_ne, beq_iff_eq] at h
  obtain ⟨⟨h1, h4⟩, h5⟩ := h
  exact ⟨h1, h4, fun r hr => ⟨(h5 r hr).1, fun x hx => (h5 r hr).2 x hx⟩⟩

/-- Every byte of the serialized form of a well-formed image fits in a
byte. -/
theorem imencode_bytes_lt (m : ImageMatrix) (h : wellFormedImage m = true) :
    ∀ x ∈ imencode m, x < 256 := by
  obtain ⟨_, _, h5⟩ := wellFormedImage_spec m h
  intro x hx
  simp only [imencode, List.mem_cons, List.mem_append] at hx
  rcases hx with h1 | h1 | h1 | h1 | (h1 | h1) | h1
  · omega
  · omega
  · omega
  · omega
  · exact natToBytes_lt (rows m) x h1
  · exact natToBytes_lt (cols m) x h1
  · obtain ⟨row, hrow, hxrow⟩ := List.mem_flatten.mp h1
    have := (h5 row hrow).2 x hxrow
    omega

/-- Serializing a well-formed image and decoding the bytes recovers the
image. -/
theorem imdecode_imencode (m : ImageMatrix) (h : wellFormedImage m = true) :
    imdecode (imencode m) = some m := by
  obtain ⟨h1, h4, h5⟩ := wellFormedImage_spec m h
  have hlen : m.flatten.length = rows m * cols m :=
    flatten_length_uniform m (cols m) (fun r hr => (h5 r hr).1)
  have hrows : rows m ≠ 0 := by
    intro hr
    exact h1 (List.length_eq_zero.mp hr)
  have hr1 := readNat_natToBytes (rows m) (natToBytes (cols m) ++ m.flatten)
  have hr2 := readNat_natToBytes (cols m) m.flatten
  show imdecode (137 :: 80 :: 78 :: 71 ::
    (natToBytes (rows m) ++ natToBytes (cols m) ++ m.flatten)) = some m
  rw [imdecode, List.append_assoc]
  simp only [hr1, hr2]
  rw [if_pos ⟨hrows, h4, hlen⟩]
  exact congrArg some (unflatten_flatten m (cols m) fun r hr => (h5 r hr).1)

/-- C8: for every well-formed enhanced matrix, the encoding step produces a
base64 string whose base64 decoding is a byte sequence that decodes as a
valid image of exactly the same pixel dimensions (in fact the same image:
the raster format is lossless). -/
theorem encode_roundtrip_preserves_image (m : ImageMatrix) (h : wellFormedImage m = true) :
    ∃ m2 : ImageMatrix,
      imdecode (b64decodeChunks (b64encode (imencode m)).data) = some m2 ∧
      rows m2 = rows m ∧ cols m2 = cols m := by
  refine ⟨m, ?_, rfl, rfl⟩
  have hd : (b64encode (imencode m)).data = b64encodeChunks (imencode m) := rfl
  rw [hd, b64_roundtrip _ (imencode_bytes_lt m h), imdecode_imencode m h]

set_option maxRecDepth 8000 in
/-- Witness for C8 at a concrete matrix with 300 columns (dimensions larger
than one byte). -/
theorem encode_roundtrip_preserves_image_w :
    ∃ m2 : ImageMatrix,
      imdecode (b64decodeChunks
        (b64encode (imencode [List.replicate 300 7])).data) = some m2 ∧
      rows m2 = rows [List.replicate 300 7] ∧ cols m2 = cols [List.replicate 300 7] :=
  encode_roundtrip_preserves_image [List.replicate 300 7] (by decide)

/-- C2: for every byte buffer that decodes to an image matrix, applying the
enhancement pipeline (non-local-means denoising at strength 10 with fixed
windows 7/21, then CLAHE with contrast limit 2.0 and an 8x8 tile grid) yields
a matrix with exactly the pixel dimensions of the decoded matrix. -/
theorem decode_enhance_preserves_dimensions (bs : List Nat) (img : ImageMatrix)
    (_h : imdecode bs = some img) :
    rows (enhance img 10 2) = rows img ∧ cols (enhance img 10 2) = cols img :=
  ⟨rows_enhance img 10 2, cols_enhance img 10 2⟩

/-- Witness for C2 at a concrete 2x2 buffer in the modelled raster format. -/
theorem decode_enhance_preserves_dimensions_w :
    rows (enhance [[10, 20], [30, 40]] 10 2) = rows [[10, 20], [30, 40]] ∧
    cols (enhance [[10, 20], [30, 40]] 10 2) = cols [[10, 20], [30, 40]] :=
  decode_enhance_preserves_dimensions [137, 80, 78, 71, 2, 2, 10, 20, 30, 40]
    [[10, 20], [30, 40]] (by decide)

/-- C5: prompt building is a pure function of the patient record and the
focus-area list (a Lean function of exactly those two arguments, hence free
of side effects), and for every record and focus list — the empty list
included — the prompt embeds the patient name, age, gender, comma-joined
medical history, complaints, previous treatments, smoking status, the
comma-joined focus areas (whose representation for `[]` is the empty string),
and the three fixed instruction bullets. -/
theorem buildPrompt_embeds_all_fields (r : PatientRecord) (analysis_type : List String) :
    strContains (buildPrompt r analysis_type) r.name ∧
    strContains (buildPrompt r analysis_type) (toString r.age) ∧
    strContains (buildPrompt r analysis_type) r.gender ∧
    strContains (buildPrompt r analysis_type) (String.intercalate ", " r.medical_history) ∧
    strContains (buildPrompt r analysis_type) r.dental_complaints ∧
    strContains (buildPrompt r analysis_type) r.previous_treatments ∧
    strContains (buildPrompt r analysis_type) r.smoking ∧
    strContains (buildPrompt r analysis_type) (String.intercalate ", " analysis_type) ∧
    strContains (buildPrompt r analysis_type) "1. Identified abnormalities" ∧
    strContains (buildPrompt r analysis_type) "2. Potential diagnosis" ∧
    strContains (buildPrompt r analysis_type) "3. Recommendations" ∧
    String.intercalate ", " ([] : List String) = "" := by
  refine ⟨?_, ?_, ?_, ?_, ?_, ?_, ?_, ?_, ?_, ?_, ?_, rfl⟩
  all_goals unfold buildPrompt
  all_goals exact strContains_concatAll _ _ (by simp)

/-! ### Control flow of one render pass -/

/-- C6: when no API key resolves from the secrets store or the environment
(or it resolves to the falsy empty string), the render pass renders exactly
the credential error and halts before the form, any image component, and any
analysis component; nothing else of the page runs. -/
theorem missing_credential_halts_session (inp : ScriptInputs) (s : SessionState)
    (hk : apiKeyOk inp = false) :
    (runScript inp s).1 =
      haltedOutput ["⚠️ Please set the API key in Streamlit Secrets or environment variables."] ∧
    (runScript inp s).1.haltedEarly = true ∧
    (runScript inp s).1.formShown = false ∧
    (runScript inp s).1.originalImage = none ∧
    (runScript inp s).1.analysisSectionShown = false ∧
    (runScript inp s).1.remoteCalls = [] := by
  simp [runScript, renderOutput, hk, haltedOutput]

/-- Witness for C6: both credential sources empty. -/
theorem missing_credential_halts_session_w :
    (runScript noKeyInputs ⟨none, none⟩).1 =
      haltedOutput ["⚠️ Please set the API key in Streamlit Secrets or environment variables."] ∧
    (runScript noKeyInputs ⟨none, none⟩).1.haltedEarly = true ∧
    (runScript noKeyInputs ⟨none, none⟩).1.formShown = false ∧
    (runScript noKeyInputs ⟨none, none⟩).1.originalImage = none ∧
    (runScript noKeyInputs ⟨none, none⟩).1.analysisSectionShown = false ∧
    (runScript noKeyInputs ⟨none, none⟩).1.remoteCalls = [] :=
  missing_credential_halts_session noKeyInputs ⟨none, none⟩ (by decide)

/-- C3: when the uploaded byte buffer does not decode as an image, the pass
renders the decode error and stops: no enhancement, no encoding, no analysis
section, no remote call and no analysis result for that interaction. -/
theorem invalid_buffer_halts_pipeline (inp : ScriptInputs) (s : SessionState) (bs : List Nat)
    (hk : apiKeyOk inp = true) (hc : inp.configureError = none)
    (hu : inp.uploadedFile = some bs) (hd : imdecode bs = none) :
    (runScript inp s).1.errors = ["Error: Unable to read the image. Please try another file."] ∧
    (runScript inp s).1.haltedEarly = true ∧
    (runScript inp s).1.enhancedImage = none ∧
    (runScript inp s).1.base64Image = none ∧
    (runScript inp s).1.analysisSectionShown = false ∧
    (runScript inp s).1.remoteCalls = [] ∧
    (runScript inp s).1.analysisResult = none := by
  simp [runScript, renderOutput, pageBody, hk, hc, hu, hd]

/-- Witness for C3: an upload of three junk bytes. -/
theorem invalid_buffer_halts_pipeline_w :
    (runScript badUploadInputs ⟨none, none⟩).1.errors =
      ["Error: Unable to read the image. Please try another file."] ∧
    (runScript badUploadInputs ⟨none, none⟩).1.haltedEarly = true ∧
    (runScript badUploadInputs ⟨none, none⟩).1.enhancedImage = none ∧
    (runScript badUploadInputs ⟨none, none⟩).1.base64Image = none ∧
    (runScript badUploadInputs ⟨none, none⟩).1.analysisSectionShown = false ∧
    (runScript badUploadInputs ⟨none, none⟩).1.remoteCalls = [] ∧
    (runScript badUploadInputs ⟨none, none⟩).1.analysisResult = none :=
  invalid_buffer_halts_pipeline badUploadInputs ⟨none, none⟩ [1, 2, 3]
    (by decide) rfl rfl (by decide)

/-- C1: on a render pass that reaches the main content (credential present,
configuration and image stages succeed), the Analysis & Results section is
rendered if and only if an uploaded image is present and the stored patient
name is a non-empty string; and whenever the stored name is the empty
string, the pass performs no remote analysis call at all. -/
theorem analysis_gate_iff_upload_and_name (inp : ScriptInputs) (s : SessionState)
    (hk : apiKeyOk inp = true) (hc : inp.configureError = none)
    (hp : inp.processingError = none) (hd : decodesOk inp.uploadedFile = true) :
    ((runScript inp s).1.analysisSectionShown = true ↔
      inp.uploadedFile.isSome = true ∧ (recordOfInputs inp).name ≠ "") ∧
    ((recordOfInputs inp).name = "" → (runScript inp s).1.remoteCalls = []) := by
  cases hu : inp.uploadedFile with
  | none => simp [runScript, renderOutput, pageBody, hk, hc, hu]
  | some bs =>
    rw [hu] at hd
    obtain ⟨img, himg⟩ := Option.isSome_iff_exists.mp hd
    by_cases hname : (recordOfInputs inp).name = ""
    · simp [runScript, renderOutput, pageBody, hk, hc, hp, hu, himg, hname]
    · cases hpress : inp.generatePressed with
      | false => simp [runScript, renderOutput, pageBody, hk, hc, hp, hu, himg, hname, hpress]
      | true =>
        cases hgen : inp.generateContent (buildPrompt (recordOfInputs inp) inp.analysisType) with
        | ok t => simp [runScript, renderOutput, pageBody, hk, hc, hp, hu, himg, hname, hpress, hgen]
        | error e => simp [runScript, renderOutput, pageBody, hk, hc, hp, hu, himg, hname, hpress, hgen]

/-- Witness for C1: the sample pass (image uploaded, name "John Doe"). -/
theorem analysis_gate_iff_upload_and_name_w :
    ((runScript sampleInputs ⟨none, none⟩).1.analysisSectionShown = true ↔
      sampleInputs.uploadedFile.isSome = true ∧ (recordOfInputs sampleInputs).name ≠ "") ∧
    ((recordOfInputs sampleInputs).name = "" →
      (runScript sampleInputs ⟨none, none⟩).1.remoteCalls = []) :=
  analysis_gate_iff_upload_and_name sampleInputs ⟨none, none⟩ (by decide) rfl rfl (by decide)

/-- On an analysis pass (main content reached, upload decoded, nonempty
name, button pressed), the rendered output records exactly one remote call
carrying the prompt, the analysis result as the remote outcome, and the
computed base64 payload. -/
theorem renderOutput_analysis_branch (inp : ScriptInputs) (bs : List Nat) (img : ImageMatrix)
    (hk : apiKeyOk inp = true) (hc : inp.configureError = none)
    (hu : inp.uploadedFile = some bs) (hd : imdecode bs = some img)
    (hp : inp.processingError = none)
    (hname : (recordOfInputs inp).name ≠ "") (hpress : inp.generatePressed = true) :
    (renderOutput inp).remoteCalls = [buildPrompt (recordOfInputs inp) inp.analysisType] ∧
    (renderOutput inp).analysisResult =
      (match inp.generateContent (buildPrompt (recordOfInputs inp) inp.analysisType) with
        | .ok t => some t
        | .error _ => none) ∧
    (renderOutput inp).base64Image =
      some (b64encode (imencode (enhance img inp.denoiseStrength inp.contrastLimit))) := by
  cases hgen : inp.generateContent (buildPrompt (recordOfInputs inp) inp.analysisType) with
  | ok t => simp [renderOutput, pageBody, hk, hc, hp, hu, hd, hname, hpress, hgen]
  | error e => simp [renderOutput, pageBody, hk, hc, hp, hu, hd, hname, hpress, hgen]

/-- C4: on an analysis pass the base64 payload of the enhanced image is
computed, yet the single remote call receives exactly the prompt string —
a function of the patient record and the focus areas only — so the analysis
result is determined by the prompt alone; replacing the uploaded image by
any other decodable image changes neither the call argument nor the
result. -/
theorem remote_call_forwards_only_prompt (inp : ScriptInputs) (s : SessionState)
    (bs : List Nat) (img : ImageMatrix)
    (hk : apiKeyOk inp = true) (hc : inp.configureError = none)
    (hu : inp.uploadedFile = some bs) (hd : imdecode bs = some img)
    (hp : inp.processingError = none)
    (hname : (recordOfInputs inp).name ≠ "") (hpress : inp.generatePressed = true) :
    (runScript inp s).1.base64Image =
      some (b64encode (imencode (enhance img inp.denoiseStrength inp.contrastLimit))) ∧
    (runScript inp s).1.remoteCalls = [buildPrompt (recordOfInputs inp) inp.analysisType] ∧
    (runScript inp s).1.analysisResult =
      (match inp.generateContent (buildPrompt (recordOfInputs inp) inp.analysisType) with
        | .ok t => some t
        | .error _ => none) ∧
    (∀ bs2 img2, imdecode bs2 = some img2 →
      (runScript { inp with uploadedFile := some bs2 } s).1.remoteCalls =
          (runScript inp s).1.remoteCalls ∧
        (runScript { inp with uploadedFile := some bs2 } s).1.analysisResult =
          (runScript inp s).1.analysisResult) := by
  obtain ⟨h1, h2, h3⟩ := renderOutput_analysis_branch inp bs img hk hc hu hd hp hname hpress
  refine ⟨h3, h1, h2, ?_⟩
  intro bs2 img2 hd2
  obtain ⟨g1, g2, _⟩ :=
    renderOutput_analysis_branch { inp with uploadedFile := some bs2 } bs2 img2
      hk hc rfl hd2 hp hname hpress
  exact ⟨g1.trans h1.symm, g2.trans h2.symm⟩

/-- Witness for C4: the sample pass with the button pressed. -/
theorem remote_call_forwards_only_prompt_w :
    (runScript pressedInputs ⟨none, none⟩).1.base64Image =
      some (b64encode (imencode
        (enhance [[10, 20], [30, 40]] pressedInputs.denoiseStrength
          pressedInputs.contrastLimit))) ∧
    (runScript pressedInputs ⟨none, none⟩).1.remoteCalls =
      [buildPrompt (recordOfInputs pressedInputs) pressedInputs.analysisType] ∧
    (runScript pressedInputs ⟨none, none⟩).1.analysisResult =
      (match pressedInputs.generateContent
          (buildPrompt (recordOfInputs pressedInputs) pressedInputs.analysisType) with
        | .ok t => some t
        | .error _ => none) ∧
    (∀ bs2 img2, imdecode bs2 = some img2 →
      (runScript { pressedInputs with uploadedFile := some bs2 } ⟨none, none⟩).1.remoteCalls =
          (runScript pressedInputs ⟨none, none⟩).1.remoteCalls ∧
        (runScript { pressedInputs with uploadedFile := some bs2 } ⟨none, none⟩).1.analysisResult =
          (runScript pressedInputs ⟨none, none⟩).1.analysisResult) :=
  remote_call_forwards_only_prompt pressedInputs ⟨none, none⟩
    [137, 80, 78, 71, 2, 2, 10, 20, 30, 40] [[10, 20], [30, 40]]
    (by decide) rfl rfl (by decide) rfl (by decide) rfl

/-- C7: a failing remote call is caught at its own boundary: the pass
renders the analysis error and nothing else fails — the script does not
stop, the form, both images and the sliders stay rendered, the footer still
renders, exactly one call was made (no retry), and the resulting session
state is identical to the one produced under any other remote outcome. -/
theorem remote_failure_halts_only_analysis (inp : ScriptInputs) (s : SessionState)
    (bs : List Nat) (img : ImageMatrix) (e : String)
    (hk : apiKeyOk inp = true) (hc : inp.configureError = none)
    (hu : inp.uploadedFile = some bs) (hd : imdecode bs = some img)
    (hp : inp.processingError = none)
    (hname : (recordOfInputs inp).name ≠ "") (hpress : inp.generatePressed = true)
    (hgen : inp.generateContent (buildPrompt (recordOfInputs inp) inp.analysisType) =
      Except.error e) :
    (runScript inp s).1.errors = ["Error generating analysis: " ++ e] ∧
    (runScript inp s).1.haltedEarly = false ∧
    (runScript inp s).1.analysisResult = none ∧
    (runScript inp s).1.formShown = true ∧
    (runScript inp s).1.originalImage = some img ∧
    (runScript inp s).1.slidersShown = true ∧
    (runScript inp s).1.enhancedImage =
      some (enhance img inp.denoiseStrength inp.contrastLimit) ∧
    (runScript inp s).1.footerShown = true ∧
    (runScript inp s).1.remoteCalls = [buildPrompt (recordOfInputs inp) inp.analysisType] ∧
    (∀ g : String → Except String String,
      (runScript { inp with generateContent := g } s).2 = (runScript inp s).2) := by
  refine ⟨?_, ?_, ?_, ?_, ?_, ?_, ?_, ?_, ?_, fun g => rfl⟩
  all_goals simp [runScript, renderOutput, pageBody, hk, hc, hp, hu, hd, hname, hpress, hgen]

/-- Witness for C7: the sample pass with a failing remote oracle. -/
theorem remote_failure_halts_only_analysis_w :
    (runScript failingRemoteInputs ⟨none, none⟩).1.errors =
      ["Error generating analysis: " ++ "quota exceeded"] ∧
    (runScript failingRemoteInputs ⟨none, none⟩).1.haltedEarly = false ∧
    (runScript failingRemoteInputs ⟨none, none⟩).1.analysisResult = none ∧
    (runScript failingRemoteInputs ⟨none, none⟩).1.formShown = true ∧
    (runScript failingRemoteInputs ⟨none, none⟩).1.originalImage = some [[10, 20], [30, 40]] ∧
    (runScript failingRemoteInputs ⟨none, none⟩).1.slidersShown = true ∧
    (runScript failingRemoteInputs ⟨none, none⟩).1.enhancedImage =
      some (enhance [[10, 20], [30, 40]] failingRemoteInputs.denoiseStrength
        failingRemoteInputs.contrastLimit) ∧
    (runScript failingRemoteInputs ⟨none, none⟩).1.footerShown = true ∧
    (runScript failingRemoteInputs ⟨none, none⟩).1.remoteCalls =
      [buildPrompt (recordOfInputs failingRemoteInputs) failingRemoteInputs.analysisType] ∧
    (∀ g : String → Except String String,
      (runScript { failingRemoteInputs with generateContent := g } ⟨none, none⟩).2 =
        (runScript failingRemoteInputs ⟨none, none⟩).2) :=
  remote_failure_halts_only_analysis failingRemoteInputs ⟨none, none⟩
    [137, 80, 78, 71, 2, 2, 10, 20, 30, 40] [[10, 20], [30, 40]] "quota exceeded"
    (by decide) rfl rfl (by decide) rfl (by decide) rfl rfl

/-- Counterexample to C9 as stated: a render pass with no upload (and the
button therefore unreachable) completes normally — the script is not stopped,
the form and the footer are rendered — yet the disclaimer banner is not
rendered, so the disclaimer is not rendered on every interaction. -/
theorem disclaimer_not_on_every_interaction :
    (runScript idleInputs ⟨none, none⟩).1.haltedEarly = false ∧
    (runScript idleInputs ⟨none, none⟩).1.formShown = true ∧
    (runScript idleInputs ⟨none, none⟩).1.footerShown = true ∧
    (runScript idleInputs ⟨none, none⟩).1.disclaimerShown = false := by decide

/-- C9 amended: on every render pass that reaches the main content
(credential present, configuration and image stages succeed), the form and
the footer are rendered; the disclaimer banner, however, is rendered exactly
on the passes where the Analysis & Results section is visible and the
Generate Analysis button is pressed — not on every interaction. -/
theorem render_pass_components (inp : ScriptInputs) (s : SessionState)
    (hk : apiKeyOk inp = true) (hc : inp.configureError = none)
    (hp : inp.processingError = none) (hd : decodesOk inp.uploadedFile = true) :
    (runScript inp s).1.footerShown = true ∧
    (runScript inp s).1.formShown = true ∧
    ((runScript inp s).1.disclaimerShown = true ↔
      (runScript inp s).1.analysisSectionShown = true ∧ inp.generatePressed = true) := by
  cases hu : inp.uploadedFile with
  | none => simp [runScript, renderOutput, pageBody, hk, hc, hu]
  | some bs =>
    rw [hu] at hd
    obtain ⟨img, himg⟩ := Option.isSome_iff_exists.mp hd
    by_cases hname : (recordOfInputs inp).name = ""
    · simp [runScript, renderOutput, pageBody, hk, hc, hp, hu, himg, hname]
    · cases hpress : inp.generatePressed with
      | false =>
        simp [runScript, renderOutput, pageBody, hk, hc, hp, hu, himg, hname, hpress]
      | true =>
        cases hgen : inp.generateContent (buildPrompt (recordOfInputs inp) inp.analysisType) with
        | ok t =>
          simp [runScript, renderOutput, pageBody, hk, hc, hp, hu, himg, hname, hpress, hgen]
        | error e =>
          simp [runScript, renderOutput, pageBody, hk, hc, hp, hu, himg, hname, hpress, hgen]

/-- Witness for the amended C9: the sample pass with the button pressed. -/
theorem render_pass_components_w :
    (runScript pressedInputs ⟨none, none⟩).1.footerShown = true ∧
    (runScript pressedInputs ⟨none, none⟩).1.formShown = true ∧
    ((runScript pressedInputs ⟨none, none⟩).1.disclaimerShown = true ↔
      (runScript pressedInputs ⟨none, none⟩).1.analysisSectionShown = true ∧
        pressedInputs.generatePressed = true) :=
  render_pass_components pressedInputs ⟨none, none⟩ (by decide) rfl rfl (by decide)

/-- The render pass always leaves `api_key_provided` at the value `False`
set by the first-access initializer of lines 44-45. -/
theorem nextSession_flag (inp : ScriptInputs) (s : SessionState) :
    (nextSession inp s).api_key_provided = some (s.api_key_provided.getD false) := by
  unfold nextSession
  cases hik : apiKeyOk inp
  · simp
  · cases hce : inp.configureError <;> simp [hce]

/-- In every reachable session state the credentials flag is `False` (or not
yet initialized, in the fresh session). -/
theorem reachable_flag (s : SessionState) (h : ReachableSession s) :
    s = ⟨none, none⟩ ∨ s.api_key_provided = some false := by
  induction h with
  | init => exact Or.inl rfl
  | step inp s2 _ ih =>
    right
    show (nextSession inp s2).api_key_provided = some false
    rw [nextSession_flag]
    rcases ih with h1 | h1
    · rw [h1]
      rfl
    · rw [h1]
      rfl

/-- C10: the session flag `api_key_provided` is initialized to `False` and
never updated afterwards — in every reachable session state it is `False`
(or still uninitialized in the fresh session), every render pass leaves it
at `False` even when a credential is present and configuration succeeds,
and no rendered output ever reads it (the output is independent of its
value). -/
theorem api_key_flag_always_false (s : SessionState) (h : ReachableSession s) :
    (s = ⟨none, none⟩ ∨ s.api_key_provided = some false) ∧
    (∀ inp : ScriptInputs, (runScript inp s).2.api_key_provided = some false) ∧
    (∀ (inp : ScriptInputs) (ph : Option PatientRecord) (b b2 : Option Bool),
      (runScript inp ⟨ph, b⟩).1 = (runScript inp ⟨ph, b2⟩).1) := by
  refine ⟨reachable_flag s h, fun inp => ?_, fun inp ph b b2 => rfl⟩
  show (nextSession inp s).api_key_provided = some false
  rw [nextSession_flag]
  rcases reachable_flag s h with h1 | h1
  · rw [h1]
    rfl
  · rw [h1]
    rfl

/-- Witness for C10 at the session state left by one concrete render pass. -/
theorem api_key_flag_always_false_w :
    ((runScript sampleInputs ⟨none, none⟩).2 = ⟨none, none⟩ ∨
      (runScript sampleInputs ⟨none, none⟩).2.api_key_provided = some false) ∧
    (∀ inp : ScriptInputs,
      (runScript inp (runScript sampleInputs ⟨none, none⟩).2).2.api_key_provided = some false) ∧
    (∀ (inp : ScriptInputs) (ph : Option PatientRecord) (b b2 : Option Bool),
      (runScript inp ⟨ph, b⟩).1 = (runScript inp ⟨ph, b2⟩).1) :=
  api_key_flag_always_false (runScript sampleInputs ⟨none, none⟩).2
    (ReachableSession.step sampleInputs ⟨none, none⟩ ReachableSession.init)

end DentalXray
